import Mathlib

/-
  Verification of the RedisCache connection-lifecycle and reconnection policy
  (src/pagespeed/system/redis_cache.h).

  The repository ships only the class declaration (redis_cache.h); the method
  bodies of redis_cache.cc are not present.  The data model below therefore
  follows the header's fields and documentation exactly where they exist, and
  every method body is modelled from the specification (marked in its doc
  comment).  Machine integers (int64 timestamps and delays) are modelled as
  Int; overflow is irrelevant at the ranges involved and the C++ code performs
  no wrap-around-sensitive arithmetic on them.
-/

namespace RedisCacheModel

/-- Reply tags mirroring the hiredis reply types checked by
`ValidateRedisReply` (`REDIS_REPLY_STRING`, `REDIS_REPLY_ARRAY`,
`REDIS_REPLY_INTEGER`, `REDIS_REPLY_NIL`, `REDIS_REPLY_STATUS`,
`REDIS_REPLY_ERROR`). -/
inductive ReplyTag where
  | str
  | array
  | integer
  | nil
  | status
  | error
  deriving DecidableEq, Repr

/-- A tagged reply value as returned by one command, per spec section 3:
one of status, integer, string/bulk, array, nil, error.  Bulk payloads are
raw bytes, modelled as lists of naturals. -/
inductive RedisReply where
  | str (value : List Nat)
  | array
  | integer (n : Int)
  | nil
  | status (s : List Nat)
  | error (msg : List Nat)
  deriving DecidableEq, Repr

/-- The tag of a reply. -/
def RedisReply.tag : RedisReply → ReplyTag
  | RedisReply.str _ => ReplyTag.str
  | RedisReply.array => ReplyTag.array
  | RedisReply.integer _ => ReplyTag.integer
  | RedisReply.nil => ReplyTag.nil
  | RedisReply.status _ => ReplyTag.status
  | RedisReply.error _ => ReplyTag.error

/-- The mutable state of one RedisCache instance, following the header's
fields: `redis_` (the connection handle, present or absent),
`next_reconnect_at_ms_` and `is_started_up_`.  `redis` is `true` when the
connection handle is present. -/
structure RedisState where
  redis : Bool
  next_reconnect_at_ms : Int
  is_started_up : Bool
  deriving DecidableEq, Repr

/-- The immutable configuration from the constructor:
`reconnection_delay_ms_`. -/
structure RedisConfig where
  reconnection_delay_ms : Int
  deriving DecidableEq, Repr

/-- Counts of the externally observable side effects of one operation:
connect attempts made against the transport, commands sent over the wire,
and error messages logged to the diagnostics sink. -/
structure Effects where
  connects : Nat
  commands : Nat
  logs : Nat
  deriving DecidableEq, Repr

/-- No side effects. -/
def Effects.zero : Effects := ⟨0, 0, 0⟩

/-- Pointwise sum of effect counts. -/
def Effects.add (a b : Effects) : Effects :=
  ⟨a.connects + b.connects, a.commands + b.commands, a.logs + b.logs⟩

/-- The environment one operation runs in: the clock reading (`Timer` in the
header), whether a connect attempt would succeed, and what `sendCommand`
would return if a command were sent (`none` is a transport-level I/O
error). -/
structure Env where
  now_ms : Int
  connect_ok : Bool
  reply : Option RedisReply
  deriving DecidableEq, Repr

/-- Modelled from the spec: the state after construction, before `StartUp`.
Missing from src: the constructor body of redis_cache.cc.  Not connected,
not started up, no backoff window scheduled. -/
def initialState : RedisState :=
  { redis := false, next_reconnect_at_ms := 0, is_started_up := false }

/-- Modelled from the spec: the body of `RedisCache::Reconnect`, missing from
src.  A raw connect attempt: on success the handle is stored; on failure the
failure is logged and the next reconnection attempt is scheduled at
now + reconnection delay.  Returns the new state, whether the attempt
succeeded, and the effects (exactly one connect attempt either way). -/
def Reconnect (cfg : RedisConfig) (st : RedisState) (env : Env) :
    RedisState × Bool × Effects :=
  if env.connect_ok then
    ({ st with redis := true }, true, ⟨1, 0, 0⟩)
  else
    ({ st with
         redis := false
         next_reconnect_at_ms := env.now_ms + cfg.reconnection_delay_ms },
     false, ⟨1, 0, 1⟩)

/-- Modelled from the spec: the ensure-connection step run at the start of
every Get/Put/Delete (spec section 4.1 EnsureConnection); the corresponding
redis_cache.cc code is missing from src.  If not started up the operation
fails immediately; if connected it proceeds; if disconnected inside the
backoff window it fails fast with no network call; otherwise one connect
attempt is made. -/
def ensureConnection (cfg : RedisConfig) (st : RedisState) (env : Env) :
    RedisState × Bool × Effects :=
  if st.is_started_up = false then (st, false, Effects.zero)
  else if st.redis then (st, true, Effects.zero)
  else if env.now_ms < st.next_reconnect_at_ms then (st, false, Effects.zero)
  else Reconnect cfg st env

/-- Modelled from the spec: the reply-validation condition of
`ValidateRedisReply`, missing from src.  A command outcome is rejected when
there is no reply at all (transport error), when the reply is error-tagged,
or when its tag is not in the expected tag-set for the command. -/
def replyRejected (valid_types : List ReplyTag) (rep : Option RedisReply) :
    Bool :=
  match rep with
  | none => true
  | some r => r.tag = ReplyTag.error || !(valid_types.contains r.tag)

/-- Modelled from the spec: command execution over an established connection
(spec section 4.1, command execution outcomes 1-3); the corresponding
redis_cache.cc code is missing from src.  A rejected outcome logs the cause,
discards the connection handle and returns no reply; an accepted reply is
returned unchanged.  Exactly one command is sent either way. -/
def executeCommand (valid_types : List ReplyTag) (st : RedisState)
    (env : Env) : RedisState × Option RedisReply × Effects :=
  if replyRejected valid_types env.reply then
    ({ st with redis := false }, none, ⟨0, 1, 1⟩)
  else
    (st, env.reply, ⟨0, 1, 0⟩)

/-- Modelled from the spec: the shared ensure-connection-then-execute shape
of Get/Put/Delete; the corresponding redis_cache.cc code is missing from
src.  When the connection cannot be ensured no command is sent and no reply
is produced. -/
def commandStep (valid_types : List ReplyTag) (cfg : RedisConfig)
    (st : RedisState) (env : Env) :
    RedisState × Option RedisReply × Effects :=
  let e := ensureConnection cfg st env
  if e.2.1 then
    let c := executeCommand valid_types e.1 env
    (c.1, c.2.1, Effects.add e.2.2 c.2.2)
  else
    (e.1, none, e.2.2)

/-- The outcome reported to Get's callback: found with the raw bytes, or
not found. -/
inductive GetResult where
  | found (value : List Nat)
  | notFound
  deriving DecidableEq, Repr

/-- Expected reply tag-set for the fetch command issued by Get: a bulk
string (hit) or nil (miss). -/
def getExpectedTags : List ReplyTag := [ReplyTag.str, ReplyTag.nil]

/-- Expected reply tag-set for the set command issued by Put: status only. -/
def putExpectedTags : List ReplyTag := [ReplyTag.status]

/-- Expected reply tag-set for the delete command issued by Delete: integer
only (count of keys removed). -/
def delExpectedTags : List ReplyTag := [ReplyTag.integer]

/-- Modelled from the spec: the mapping from a validated command outcome to
Get's callback argument (spec section 4.1 Get); the corresponding
redis_cache.cc code is missing from src.  A bulk reply is found with its
bytes; a nil reply or a failed execution is not found. -/
def getResultOfReply : Option RedisReply → GetResult
  | some (RedisReply.str v) => GetResult.found v
  | _ => GetResult.notFound

/-- Modelled from the spec: `RedisCache::Get`, whose body is missing from
src.  Ensures a connection, issues one fetch command, and computes the
callback outcome. -/
def Get (cfg : RedisConfig) (st : RedisState) (env : Env) :
    RedisState × GetResult × Effects :=
  let c := commandStep getExpectedTags cfg st env
  (c.1, getResultOfReply c.2.1, c.2.2)

/-- Modelled from the spec: Get invoking its callback exactly once,
synchronously, before returning (spec section 6); the corresponding
redis_cache.cc code is missing from src.  The callback is applied to the
computed outcome and its result is returned alongside the new state. -/
def GetWithCallback {α : Type} (cfg : RedisConfig) (st : RedisState)
    (env : Env) (cb : GetResult → α) : RedisState × α × Effects :=
  let g := Get cfg st env
  (g.1, cb g.2.1, g.2.2)

/-- Modelled from the spec: `RedisCache::Put`, whose body is missing from
src.  Ensures a connection and issues one set command; the reply is
validated against the status tag-set and then dropped — Put returns nothing
to the caller. -/
def Put (cfg : RedisConfig) (st : RedisState) (env : Env) :
    RedisState × Effects :=
  let c := commandStep putExpectedTags cfg st env
  (c.1, c.2.2)

/-- Modelled from the spec: `RedisCache::Delete`, whose body is missing from
src.  Ensures a connection and issues one delete command; the reply is
validated against the integer tag-set and then dropped — Delete returns
nothing to the caller. -/
def Delete (cfg : RedisConfig) (st : RedisState) (env : Env) :
    RedisState × Effects :=
  let c := commandStep delExpectedTags cfg st env
  (c.1, c.2.2)

/-- The three cache operations of the generic cache interface. -/
inductive Op where
  | get
  | put
  | del
  deriving DecidableEq, Repr

/-- The expected reply tag-set of each operation's command. -/
def opTags : Op → List ReplyTag
  | Op.get => getExpectedTags
  | Op.put => putExpectedTags
  | Op.del => delExpectedTags

/-- One Get/Put/Delete operation viewed as a state transition with effects
(the Get callback value is tracked separately by `Get`). -/
def runOp (cfg : RedisConfig) (st : RedisState) (op : Op) (env : Env) :
    RedisState × Effects :=
  let c := commandStep (opTags op) cfg st env
  (c.1, c.2.2)

/-- Modelled from the spec: `RedisCache::IsHealthyLockHeld`, whose body is
missing from src.  True iff started up and the connection handle is
present. -/
def IsHealthyLockHeld (st : RedisState) : Bool :=
  st.is_started_up && st.redis

/-- Modelled from the spec: `RedisCache::IsHealthy`, whose body is missing
from src.  Takes the lock and reads `IsHealthyLockHeld`. -/
def IsHealthy (st : RedisState) : Bool :=
  IsHealthyLockHeld st

/-- Modelled from the spec: `IsHealthy` viewed as an operation, to make its
absence of side effects explicit — it returns the state unchanged, performs
no network call and logs nothing. -/
def IsHealthyOp (st : RedisState) : RedisState × Bool × Effects :=
  (st, IsHealthyLockHeld st, Effects.zero)

/-- Modelled from the spec: `RedisCache::ShutDown`, whose body is missing
from src.  Discards the connection handle permanently and marks the client
as torn down (spec section 3: the started-up flag is reset only by
shutdown, which tears down the connection permanently). -/
def ShutDown (st : RedisState) : RedisState :=
  { st with redis := false, is_started_up := false }

/-- The destructor body, present in src (redis_cache.h line 53):
`~RedisCache() override { ShutDown(); }`. -/
def destructorRun (st : RedisState) : RedisState :=
  ShutDown st

/-- Modelled from the spec: `RedisCache::StartUp`, whose body is missing
from src.  Sets the started-up flag and attempts an initial connection;
a connect failure does not fail the caller, it only schedules the first
backoff window (inside `Reconnect`). -/
def StartUp (cfg : RedisConfig) (st : RedisState) (env : Env) :
    RedisState × Effects :=
  let r := Reconnect cfg { st with is_started_up := true } env
  (r.1, r.2.2)

/-- The states reachable by a client whose clock never goes backwards:
`Reachable cfg st t` holds when `st` can arise at time `t` from
construction followed by `StartUp` and any sequence of Get/Put/Delete
operations at nondecreasing nonnegative times. -/
inductive Reachable (cfg : RedisConfig) : RedisState → Int → Prop where
  | start (env : Env) (h0 : 0 ≤ env.now_ms) :
      Reachable cfg (StartUp cfg initialState env).1 env.now_ms
  | step {st : RedisState} {t : Int} (op : Op) (env : Env)
      (hst : Reachable cfg st t) (hmono : t ≤ env.now_ms) :
      Reachable cfg (runOp cfg st op env).1 env.now_ms

/-- A minimal model of the store's key space, used to close the loop between
Delete and a subsequent Get: an association list from keys to values, both
raw bytes. -/
def Db : Type := List (List Nat × List Nat)

/-- Lookup of a key in the store. -/
def dbLookup (db : Db) (k : List Nat) : Option (List Nat) :=
  match db with
  | [] => none
  | (k2, v) :: rest => if k2 = k then some v else dbLookup rest k

/-- Removal of a key from the store. -/
def dbRemove (db : Db) (k : List Nat) : Db :=
  match db with
  | [] => []
  | (k2, v) :: rest =>
    if k2 = k then dbRemove rest k else (k2, v) :: dbRemove rest k

/-- The store's reply to the fetch command issued by Get: the bulk value,
or nil when the key is absent. -/
def serverGet (db : Db) (k : List Nat) : RedisReply :=
  match dbLookup db k with
  | some v => RedisReply.str v
  | none => RedisReply.nil

/-- The store's behaviour on the delete command issued by Delete: the key is
removed and the reply is the integer count of keys removed, 1 when the key
was present and 0 when it was not. -/
def serverDel (db : Db) (k : List Nat) : Db × RedisReply :=
  (dbRemove db k,
   RedisReply.integer (if (dbLookup db k).isSome then 1 else 0))

/-- Looking a key up after removing it yields nothing. -/
theorem dbLookup_dbRemove (db : Db) (k : List Nat) :
    dbLookup (dbRemove db k) k = none := by
  induction db with
  | nil => rfl
  | cons p rest ih =>
    obtain ⟨k2, v⟩ := p
    by_cases h : k2 = k
    · simp [dbRemove, h, ih]
    · simp [dbRemove, dbLookup, h, ih]

/-- C4: every Get/Put/Delete issued while the client is not started up
(before `StartUp`, or after `ShutDown`, which clears the started-up flag)
fails its precondition check, makes no network call (no connect attempt and
no command sent), and leaves all client state unchanged; Get reports not
found. -/
theorem C4_precondition_gate (cfg : RedisConfig) (st : RedisState)
    (env : Env) (op : Op) :
    (st.is_started_up = false →
       runOp cfg st op env = (st, Effects.zero) ∧
       (Get cfg st env).2.1 = GetResult.notFound) ∧
    (ShutDown st).is_started_up = false ∧
    runOp cfg (ShutDown st) op env = (ShutDown st, Effects.zero) ∧
    (Get cfg (ShutDown st) env).2.1 = GetResult.notFound := by
  refine ⟨fun h => ⟨?_, ?_⟩, rfl, ?_, ?_⟩ <;>
    simp [runOp, Get, commandStep, ensureConnection, ShutDown,
      getResultOfReply, *]

/-- Witness for C4 at a concrete freshly constructed client and a concrete
environment. -/
theorem C4_precondition_gate_witness :
    runOp ⟨1000⟩ initialState Op.get ⟨5, true, some RedisReply.nil⟩ =
      (initialState, Effects.zero) ∧
    (Get ⟨1000⟩ initialState ⟨5, true, some RedisReply.nil⟩).2.1 =
      GetResult.notFound :=
  (C4_precondition_gate ⟨1000⟩ initialState
    ⟨5, true, some RedisReply.nil⟩ Op.get).1 rfl

/-- C5: `IsHealthy` returns true iff the client is started up and the
connection handle is present; as an operation it changes no state and has
no side effects (no connect attempt, no command, no log).  It is false on
the freshly constructed client, true right after a `StartUp` whose connect
succeeds, false immediately after a communication error on an established
connection with no intervening call, and false after `ShutDown`. -/
theorem C5_is_healthy (cfg : RedisConfig) (st : RedisState) (env : Env) :
    (IsHealthyOp st).1 = st ∧
    (IsHealthyOp st).2.2 = Effects.zero ∧
    (IsHealthy st = true ↔ (st.is_started_up = true ∧ st.redis = true)) ∧
    IsHealthy initialState = false ∧
    (env.connect_ok = true →
       IsHealthy (StartUp cfg initialState env).1 = true) ∧
    (st.is_started_up = true → st.redis = true → env.reply = none →
       IsHealthy (runOp cfg st Op.get env).1 = false) ∧
    IsHealthy (ShutDown st) = false := by
  refine ⟨rfl, rfl, ?_, rfl, fun h5 => ?_, fun h1 h2 h3 => ?_, ?_⟩
  · simp [IsHealthy, IsHealthyLockHeld]
  · simp [IsHealthy, IsHealthyLockHeld, StartUp, Reconnect, h5]
  · simp [IsHealthy, IsHealthyLockHeld, runOp, commandStep, ensureConnection,
      executeCommand, replyRejected, h1, h2, h3]
  · simp [IsHealthy, IsHealthyLockHeld, ShutDown]

/-- Witness for C5 at a concrete connected started-up state and a concrete
environment carrying a transport error. -/
theorem C5_is_healthy_witness :
    IsHealthy (StartUp ⟨1000⟩ initialState ⟨0, true, none⟩).1 = true ∧
    IsHealthy
      (runOp ⟨1000⟩ ⟨true, 0, true⟩ Op.get ⟨5, true, none⟩).1 = false :=
  ⟨(C5_is_healthy ⟨1000⟩ ⟨true, 0, true⟩ ⟨0, true, none⟩).2.2.2.2.1 rfl,
   (C5_is_healthy ⟨1000⟩ ⟨true, 0, true⟩
      ⟨5, true, none⟩).2.2.2.2.2.1 rfl rfl rfl⟩

/-- C6: `ShutDown` discards the connection handle, is idempotent, and is
terminal: afterwards every Get/Put/Delete fails with no network call and no
reconnection attempt, leaving the state unchanged, and Get reports not
found. -/
theorem C6_shutdown_terminal (cfg : RedisConfig) (st : RedisState)
    (env : Env) (op : Op) :
    (ShutDown st).redis = false ∧
    ShutDown (ShutDown st) = ShutDown st ∧
    runOp cfg (ShutDown st) op env = (ShutDown st, Effects.zero) ∧
    (Get cfg (ShutDown st) env).2.1 = GetResult.notFound := by
  refine ⟨rfl, rfl, ?_, ?_⟩ <;>
    simp [runOp, Get, commandStep, ensureConnection, ShutDown,
      getResultOfReply]

/-- C10: the destructor body runs `ShutDown`, so destruction always releases
the connection handle, and destroying an already shut-down client changes
nothing further. -/
theorem C10_destructor_shuts_down (st : RedisState) :
    destructorRun st = ShutDown st ∧
    (destructorRun st).redis = false ∧
    destructorRun (ShutDown st) = ShutDown st := by
  exact ⟨rfl, rfl, rfl⟩

/-- C1: for every Get/Put/Delete on a started-up but disconnected client,
a call strictly inside the backoff window fails fast — state unchanged, no
connect attempt, no command sent, Get reporting not found — while a call at
or after `next_reconnect_at_ms` makes exactly one connect attempt, and if
that attempt fails the next reconnect time becomes now plus the
reconnection delay and the client stays disconnected. -/
theorem C1_backoff_gating (cfg : RedisConfig) (st : RedisState) (env : Env)
    (op : Op) (hs : st.is_started_up = true) (hd : st.redis = false) :
    (env.now_ms < st.next_reconnect_at_ms →
       runOp cfg st op env = (st, Effects.zero) ∧
       (Get cfg st env).2.1 = GetResult.notFound) ∧
    (st.next_reconnect_at_ms ≤ env.now_ms →
       (runOp cfg st op env).2.connects = 1 ∧
       (env.connect_ok = false →
          (runOp cfg st op env).1.redis = false ∧
          (runOp cfg st op env).1.next_reconnect_at_ms =
            env.now_ms + cfg.reconnection_delay_ms)) := by
  constructor
  · intro hlt
    constructor <;>
      simp [runOp, Get, commandStep, ensureConnection, hs, hd, hlt,
        getResultOfReply]
  · intro hge
    by_cases hco : env.connect_ok = true
    · refine ⟨?_, fun hcf => absurd hco (by simp [hcf])⟩
      by_cases hrej : replyRejected (opTags op) env.reply = true <;>
        simp [runOp, commandStep, ensureConnection, executeCommand, Reconnect,
          Effects.add, Effects.zero, hs, hd, hco, hrej, not_lt.mpr hge]
    · constructor <;>
        simp [runOp, commandStep, ensureConnection, Reconnect, hs, hd, hco,
          not_lt.mpr hge]

/-- Witness for C1 at a concrete disconnected started-up state, one call
inside the backoff window and one at its end with a failing connect. -/
theorem C1_backoff_gating_witness :
    (runOp ⟨1000⟩ ⟨false, 100, true⟩ Op.put ⟨5, false, none⟩ =
       (⟨false, 100, true⟩, Effects.zero)) ∧
    ((runOp ⟨1000⟩ ⟨false, 100, true⟩ Op.put ⟨100, false, none⟩).2.connects
       = 1) ∧
    ((runOp ⟨1000⟩ ⟨false, 100, true⟩ Op.put
        ⟨100, false, none⟩).1.next_reconnect_at_ms = 1100) :=
  ⟨((C1_backoff_gating ⟨1000⟩ ⟨false, 100, true⟩ ⟨5, false, none⟩ Op.put
      rfl rfl).1 (by decide)).1,
   ((C1_backoff_gating ⟨1000⟩ ⟨false, 100, true⟩ ⟨100, false, none⟩ Op.put
      rfl rfl).2 (by decide)).1,
   by
     have h := (((C1_backoff_gating ⟨1000⟩ ⟨false, 100, true⟩
       ⟨100, false, none⟩ Op.put rfl rfl).2 (by decide)).2 rfl).2
     simpa using h⟩

/-- C3: on a started-up client, Get invokes its callback exactly once,
synchronously, before returning: with found and the reply's raw bytes on a
bulk reply, with not found on a nil reply, and with not found both on a
transport error and when the connection cannot be established, so a real
miss and a broken connection are indistinguishable to the caller. -/
theorem C3_get_callback (cfg : RedisConfig) (st : RedisState) (env : Env)
    (hs : st.is_started_up = true) :
    (GetWithCallback cfg st env (fun r => [r])).2.1.length = 1 ∧
    (∀ v, st.redis = true → env.reply = some (RedisReply.str v) →
       (GetWithCallback cfg st env (fun r => [r])).2.1 =
         [GetResult.found v]) ∧
    (st.redis = true → env.reply = some RedisReply.nil →
       (GetWithCallback cfg st env (fun r => [r])).2.1 =
         [GetResult.notFound]) ∧
    (st.redis = true → env.reply = none →
       (GetWithCallback cfg st env (fun r => [r])).2.1 =
         [GetResult.notFound]) ∧
    (st.redis = false → env.connect_ok = false →
       (GetWithCallback cfg st env (fun r => [r])).2.1 =
         [GetResult.notFound]) := by
  refine ⟨rfl, fun v h1 h2 => ?_, fun h1 h2 => ?_, fun h1 h2 => ?_,
    fun h1 h2 => ?_⟩
  · simp [GetWithCallback, Get, commandStep, ensureConnection,
      executeCommand, replyRejected, getExpectedTags, getResultOfReply,
      RedisReply.tag, hs, h1, h2]
  · simp [GetWithCallback, Get, commandStep, ensureConnection,
      executeCommand, replyRejected, getExpectedTags, getResultOfReply,
      RedisReply.tag, hs, h1, h2]
  · simp [GetWithCallback, Get, commandStep, ensureConnection,
      executeCommand, replyRejected, getResultOfReply, hs, h1, h2]
  · by_cases hlt : env.now_ms < st.next_reconnect_at_ms <;>
      simp [GetWithCallback, Get, commandStep, ensureConnection, Reconnect,
        getResultOfReply, hs, h1, h2, hlt]

/-- Witness for C3: a concrete hit, a concrete nil miss, a concrete
transport error and a concrete failed reconnect all invoke the callback
exactly once, with the classified outcome. -/
theorem C3_get_callback_witness :
    (GetWithCallback ⟨1000⟩ ⟨true, 0, true⟩ ⟨5, true,
        some (RedisReply.str [7, 8])⟩ (fun r => [r])).2.1 =
      [GetResult.found [7, 8]] ∧
    (GetWithCallback ⟨1000⟩ ⟨true, 0, true⟩ ⟨5, true,
        some RedisReply.nil⟩ (fun r => [r])).2.1 = [GetResult.notFound] ∧
    (GetWithCallback ⟨1000⟩ ⟨true, 0, true⟩ ⟨5, true, none⟩
        (fun r => [r])).2.1 = [GetResult.notFound] ∧
    (GetWithCallback ⟨1000⟩ ⟨false, 0, true⟩ ⟨5, false, none⟩
        (fun r => [r])).2.1 = [GetResult.notFound] :=
  ⟨(C3_get_callback ⟨1000⟩ ⟨true, 0, true⟩
      ⟨5, true, some (RedisReply.str [7, 8])⟩ rfl).2.1 [7, 8] rfl rfl,
   (C3_get_callback ⟨1000⟩ ⟨true, 0, true⟩
      ⟨5, true, some RedisReply.nil⟩ rfl).2.2.1 rfl rfl,
   (C3_get_callback ⟨1000⟩ ⟨true, 0, true⟩ ⟨5, true, none⟩
      rfl).2.2.2.1 rfl rfl,
   (C3_get_callback ⟨1000⟩ ⟨false, 0, true⟩ ⟨5, false, none⟩
      rfl).2.2.2.2 rfl rfl⟩

/-- C7: on an established connection Put accepts exactly the status-tagged
replies — the connection stays up iff the reply tag is status.  Every other
outcome (transport error, error-tagged or wrong-tag reply, and connect
failure while disconnected) is silent: Put returns no value and signals no
error (its codomain carries only state and side-effect counts), the failure
being visible only through `IsHealthy` turning false and the log count. -/
theorem C7_put_silent_failure (cfg : RedisConfig) (st : RedisState)
    (env : Env) (hs : st.is_started_up = true) :
    (st.redis = true → ∀ r, env.reply = some r →
       ((Put cfg st env).1.redis = true ↔ r.tag = ReplyTag.status)) ∧
    (st.redis = true → env.reply = none →
       IsHealthy (Put cfg st env).1 = false ∧
       (Put cfg st env).2.logs = 1) ∧
    (st.redis = true → ∀ r, env.reply = some r →
       r.tag ≠ ReplyTag.status →
       IsHealthy (Put cfg st env).1 = false ∧
       (Put cfg st env).2.logs = 1) ∧
    (st.redis = true → ∀ r, env.reply = some r →
       r.tag = ReplyTag.status →
       (Put cfg st env).1 = st ∧ (Put cfg st env).2.logs = 0) ∧
    (st.redis = false → env.connect_ok = false →
       IsHealthy (Put cfg st env).1 = false) := by
  refine ⟨fun hc r hr => ?_, fun hc hr => ?_, fun hc r hr htag => ?_,
    fun hc r hr htag => ?_, fun hc hcf => ?_⟩
  · cases r <;>
      simp [Put, commandStep, ensureConnection, executeCommand,
        replyRejected, putExpectedTags, Effects.add, Effects.zero, RedisReply.tag,
        hs, hc, hr]
  · simp [Put, IsHealthy, IsHealthyLockHeld, commandStep, ensureConnection,
      executeCommand, replyRejected, Effects.add, Effects.zero, hs, hc, hr]
  · cases r <;>
      simp_all [Put, IsHealthy, IsHealthyLockHeld, commandStep,
        ensureConnection, executeCommand, replyRejected, putExpectedTags,
        Effects.add, Effects.zero, RedisReply.tag]
  · cases r <;>
      simp_all [Put, commandStep, ensureConnection, executeCommand,
        replyRejected, putExpectedTags, Effects.add, Effects.zero, RedisReply.tag]
  · by_cases hlt : env.now_ms < st.next_reconnect_at_ms <;>
      simp [Put, IsHealthy, IsHealthyLockHeld, commandStep,
        ensureConnection, Reconnect, hs, hc, hcf, hlt]

/-- Witness for C7 at a concrete connected started-up state: a status reply
is accepted, while an integer-tagged reply and a transport error leave the
client unhealthy with one log line and no caller-visible error. -/
theorem C7_put_silent_failure_witness :
    ((Put ⟨1000⟩ ⟨true, 0, true⟩
        ⟨5, true, some (RedisReply.status [79, 75])⟩).1 = ⟨true, 0, true⟩) ∧
    (IsHealthy (Put ⟨1000⟩ ⟨true, 0, true⟩
        ⟨5, true, some (RedisReply.integer 1)⟩).1 = false) ∧
    ((Put ⟨1000⟩ ⟨true, 0, true⟩
        ⟨5, true, some (RedisReply.integer 1)⟩).2.logs = 1) ∧
    (IsHealthy (Put ⟨1000⟩ ⟨true, 0, true⟩ ⟨5, true, none⟩).1 = false) :=
  ⟨((C7_put_silent_failure ⟨1000⟩ ⟨true, 0, true⟩
      ⟨5, true, some (RedisReply.status [79, 75])⟩ rfl).2.2.2.1 rfl
      (RedisReply.status [79, 75]) rfl rfl).1,
   ((C7_put_silent_failure ⟨1000⟩ ⟨true, 0, true⟩
      ⟨5, true, some (RedisReply.integer 1)⟩ rfl).2.2.1 rfl
      (RedisReply.integer 1) rfl (by decide)).1,
   ((C7_put_silent_failure ⟨1000⟩ ⟨true, 0, true⟩
      ⟨5, true, some (RedisReply.integer 1)⟩ rfl).2.2.1 rfl
      (RedisReply.integer 1) rfl (by decide)).2,
   ((C7_put_silent_failure ⟨1000⟩ ⟨true, 0, true⟩
      ⟨5, true, none⟩ rfl).2.1 rfl rfl).1⟩

/-- C8: on an established connection Delete accepts exactly the
integer-tagged replies — the connection stays up iff the reply tag is
integer — and every integer reply, in particular both 0 and 1, is a success
that changes no client state and logs nothing.  Deleting a key with no
stored value yields the integer reply 0 (success), the store's reply is
always 0 or 1, and a subsequent Get of the deleted key against the store
reports not found. -/
theorem C8_delete_integer_reply (cfg : RedisConfig) (st : RedisState)
    (db : Db) (k : List Nat) (tDel tGet : Int) (c1 c2 : Bool)
    (hs : st.is_started_up = true) (hc : st.redis = true) :
    (∀ r, ((Delete cfg st ⟨tDel, c1, some r⟩).1.redis = true ↔
        r.tag = ReplyTag.integer)) ∧
    (∀ n : Int,
       (Delete cfg st ⟨tDel, c1, some (RedisReply.integer n)⟩).1 = st ∧
       (Delete cfg st ⟨tDel, c1, some (RedisReply.integer n)⟩).2.logs
         = 0) ∧
    (dbLookup db k = none → (serverDel db k).2 = RedisReply.integer 0) ∧
    ((serverDel db k).2 = RedisReply.integer 0 ∨
       (serverDel db k).2 = RedisReply.integer 1) ∧
    ((Get cfg st ⟨tGet, c2, some (serverGet (serverDel db k).1 k)⟩).2.1 =
       GetResult.notFound) := by
  refine ⟨fun r => ?_, fun n => ⟨?_, ?_⟩, fun hnone => ?_, ?_, ?_⟩
  · cases r <;>
      simp [Delete, commandStep, ensureConnection, executeCommand,
        replyRejected, delExpectedTags, Effects.add, Effects.zero, RedisReply.tag,
        hs, hc]
  · simp [Delete, commandStep, ensureConnection, executeCommand,
      replyRejected, delExpectedTags, Effects.add, Effects.zero, RedisReply.tag, hs, hc]
  · simp [Delete, commandStep, ensureConnection, executeCommand,
      replyRejected, delExpectedTags, Effects.add, Effects.zero, RedisReply.tag, hs, hc]
  · simp [serverDel, hnone]
  · by_cases hsome : (dbLookup db k).isSome <;> simp [serverDel, hsome]
  · simp [serverDel, serverGet, dbLookup_dbRemove, Get, commandStep,
      ensureConnection, executeCommand, replyRejected, getExpectedTags,
      Effects.add, Effects.zero, getResultOfReply, RedisReply.tag, hs, hc]

/-- Witness for C8 at a concrete connected started-up state and a concrete
one-entry store that does not contain the deleted key. -/
theorem C8_delete_integer_reply_witness :
    ((Delete ⟨1000⟩ ⟨true, 0, true⟩
        ⟨5, true, some (RedisReply.integer 0)⟩).1 = ⟨true, 0, true⟩) ∧
    ((serverDel [([1], [9])] [2]).2 = RedisReply.integer 0) ∧
    ((Get ⟨1000⟩ ⟨true, 0, true⟩
        ⟨6, true, some (serverGet (serverDel [([1], [9])] [2]).1 [2])⟩).2.1
       = GetResult.notFound) :=
  ⟨((C8_delete_integer_reply ⟨1000⟩ ⟨true, 0, true⟩ [([1], [9])] [2]
      5 6 true true rfl rfl).2.1 0).1,
   (C8_delete_integer_reply ⟨1000⟩ ⟨true, 0, true⟩ [([1], [9])] [2]
      5 6 true true rfl rfl).2.2.1 (by decide),
   (C8_delete_integer_reply ⟨1000⟩ ⟨true, 0, true⟩ [([1], [9])] [2]
      5 6 true true rfl rfl).2.2.2.2⟩

/-- One Get/Put/Delete step preserves the backoff invariant: whenever the
connection handle is present afterwards, the scheduled reconnect time does
not lie in the future.  Successful connects never schedule a backoff
window, and they only happen at or after the scheduled time. -/
theorem runOp_backoff_inv (cfg : RedisConfig) {st : RedisState} {t : Int}
    (op : Op) (env : Env)
    (h : st.redis = true → st.next_reconnect_at_ms ≤ t)
    (ht : t ≤ env.now_ms) :
    (runOp cfg st op env).1.redis = true →
    (runOp cfg st op env).1.next_reconnect_at_ms ≤ env.now_ms := by
  by_cases h1 : st.is_started_up = false
  · simp [runOp, commandStep, ensureConnection, h1]
    exact fun hr => le_trans (h hr) ht
  · by_cases h2 : st.redis = true
    · by_cases h3 : replyRejected (opTags op) env.reply = true
      · simp [runOp, commandStep, ensureConnection, executeCommand,
          h1, h2, h3]
      · simp [runOp, commandStep, ensureConnection, executeCommand,
          h1, h2, h3]
        exact le_trans (h h2) ht
    · by_cases h4 : env.now_ms < st.next_reconnect_at_ms
      · simp [runOp, commandStep, ensureConnection, h1, h2, h4]
      · by_cases h5 : env.connect_ok = true
        · by_cases h3 : replyRejected (opTags op) env.reply = true <;>
            simp [runOp, commandStep, ensureConnection, Reconnect,
              executeCommand, h1, h2, h4, h5, h3, le_of_not_lt h4]
        · simp [runOp, commandStep, ensureConnection, Reconnect,
            h1, h2, h4, h5]

/-- In every reachable state whose connection handle is present, the
scheduled reconnect time does not lie in the future. -/
theorem reachable_backoff_inv {cfg : RedisConfig} {st : RedisState}
    {t : Int} (hr : Reachable cfg st t) :
    st.redis = true → st.next_reconnect_at_ms ≤ t := by
  induction hr with
  | start env h0 =>
    by_cases h5 : env.connect_ok = true
    · simp [StartUp, Reconnect, initialState, h5]
      exact h0
    · simp [StartUp, Reconnect, initialState, h5]
  | step op env hst hmono ih =>
    exact runOp_backoff_inv _ op env ih hmono

/-- C2: a communication or protocol error on an established connection (a
transport error, an error-tagged reply, or a wrong-tag reply) discards the
connection handle but sets no backoff window — the scheduled reconnect time
is left untouched — so the immediately following Get/Put/Delete, at any
time not earlier than the failing call, makes exactly one connect attempt
regardless of how little time has elapsed. -/
theorem C2_comm_error_no_backoff {cfg : RedisConfig} {st : RedisState}
    {t : Int} (env env2 : Env) (op op2 : Op)
    (hreach : Reachable cfg st t)
    (hs : st.is_started_up = true) (hc : st.redis = true)
    (ht : t ≤ env.now_ms)
    (hbad : replyRejected (opTags op) env.reply = true)
    (ht2 : env.now_ms ≤ env2.now_ms) :
    (runOp cfg st op env).1.redis = false ∧
    (runOp cfg st op env).1.next_reconnect_at_ms =
      st.next_reconnect_at_ms ∧
    (runOp cfg st op env).1.is_started_up = true ∧
    (runOp cfg (runOp cfg st op env).1 op2 env2).2.connects = 1 := by
  have hnext : st.next_reconnect_at_ms ≤ env.now_ms :=
    le_trans (reachable_backoff_inv hreach hc) ht
  have hstate : (runOp cfg st op env).1 = { st with redis := false } := by
    simp [runOp, commandStep, ensureConnection, executeCommand, hs, hc,
      hbad]
  refine ⟨by simp [hstate], by simp [hstate], by simp [hstate, hs], ?_⟩
  rw [hstate]
  have hnot2 : ¬(env2.now_ms < st.next_reconnect_at_ms) :=
    not_lt.mpr (le_trans hnext ht2)
  by_cases h5 : env2.connect_ok = true
  · by_cases h6 : replyRejected (opTags op2) env2.reply = true <;>
      simp [runOp, commandStep, ensureConnection, Reconnect,
        executeCommand, Effects.add, Effects.zero, hs, hnot2, h5, h6]
  · simp [runOp, commandStep, ensureConnection, Reconnect, Effects.add,
      Effects.zero, hs, hnot2, h5]

/-- Witness for C2: a client started at time 0 with a successful connect
suffers a transport error during a Get at time 5; the handle is dropped,
the reconnect time is untouched, and a Put at the very same time 5 already
makes exactly one connect attempt. -/
theorem C2_comm_error_no_backoff_witness :
    (runOp ⟨1000⟩ (StartUp ⟨1000⟩ initialState ⟨0, true, none⟩).1 Op.get
        ⟨5, true, none⟩).1.redis = false ∧
    (runOp ⟨1000⟩ (StartUp ⟨1000⟩ initialState ⟨0, true, none⟩).1 Op.get
        ⟨5, true, none⟩).1.next_reconnect_at_ms =
      (StartUp ⟨1000⟩ initialState ⟨0, true, none⟩).1.next_reconnect_at_ms ∧
    (runOp ⟨1000⟩ (StartUp ⟨1000⟩ initialState ⟨0, true, none⟩).1 Op.get
        ⟨5, true, none⟩).1.is_started_up = true ∧
    (runOp ⟨1000⟩
        (runOp ⟨1000⟩ (StartUp ⟨1000⟩ initialState ⟨0, true, none⟩).1 Op.get
          ⟨5, true, none⟩).1 Op.put ⟨5, false, none⟩).2.connects = 1 :=
  C2_comm_error_no_backoff ⟨5, true, none⟩ ⟨5, false, none⟩ Op.get Op.put
    (Reachable.start ⟨0, true, none⟩ (by decide)) rfl rfl (by decide) rfl
    (by decide)

end RedisCacheModel
